import Mathlib

/-!
Shallow embedding of the Ticketmaster-Resale-Notifier script (src/script.js).

The script is a single-shot run: read the session cookie, load the persisted
set of already-notified offer identifiers from `notifiedOffers.json`, parse
`key=value` command-line arguments, fetch the resale availability for the
event, diff the offers against the persisted set, and send a push
notification for new offers, committing their identifiers to the state file
only after the notification POST resolves.

JavaScript string operations used by the script (`split`, `trim`, the
`^--` replace) are re-implemented here by structural recursion on the
character list so that every definition evaluates inside the kernel.
-/

/-- Split a character list at every occurrence of the character `c`,
mirroring JavaScript `String.prototype.split` with a one-character
separator (so `"".split` gives `[""]` and separators at the ends give
empty segments). -/
def splitOnChar (c : Char) : List Char → List (List Char)
  | [] => [[]]
  | x :: xs =>
    let r := splitOnChar c xs
    if x = c then [] :: r
    else
      match r with
      | [] => [[x]]
      | h :: t => (x :: h) :: t

/-- JavaScript `s.split(c)` for a one-character separator. -/
def jsSplit (s : String) (c : Char) : List String :=
  (splitOnChar c s.data).map (fun l => String.mk l)

/-- JavaScript `s.trim()`: strip whitespace from both ends. -/
def jsTrim (s : String) : String :=
  String.mk (((s.data.dropWhile Char.isWhitespace).reverse.dropWhile
    Char.isWhitespace).reverse)

/-- The key.replace regex of script.js line 56: strip one leading `--`. -/
def stripDashes (k : String) : String :=
  match k.data with
  | '-' :: '-' :: rest => String.mk rest
  | _ => k

/-- If `pat` is a prefix of `l`, return the remainder of `l`. -/
def dropSeq? : List Char → List Char → Option (List Char)
  | [], l => some l
  | _ :: _, [] => none
  | p :: ps, x :: xs => if p = x then dropSeq? ps xs else none

/-- Break a character list at the first occurrence of the pattern `pat`,
returning the part before it and the part after it. -/
def breakOnSeq (pat : List Char) : List Char → Option (List Char × List Char)
  | [] =>
    match dropSeq? pat [] with
    | some r => some ([], r)
    | none => none
  | x :: xs =>
    match dropSeq? pat (x :: xs) with
    | some rest => some ([], rest)
    | none =>
      match breakOnSeq pat xs with
      | some (pre, post) => some (x :: pre, post)
      | none => none

/-- A resale offer as observed from the availability API: a unique
identifier and a list of quantities (script.js lines 112-113, 139-140). -/
structure Offer where
  id : String
  quantities : List Int
deriving DecidableEq

/-- The parsed JSON body of the availability response: an `offers` array
(script.js line 172). -/
structure ApiData where
  offers : List Offer
deriving DecidableEq

/-- The on-disk state file `notifiedOffers.json`: absent, present but not
parseable as JSON, or a JSON array of identifier strings. -/
inductive FileContent where
  | missing
  | corrupt
  | ids (l : List String)
deriving DecidableEq

/-- Observable actions of a run, in program order: the availability GET,
the success-notification POST (with its offers, title and message), the
error-notification POST, a write of the state file, a `process.exit`
call, and a `console.error` line. -/
inductive Event where
  | fetchAvailability
  | postSuccess (offers : List Offer) (title message : String)
  | postError (message : String)
  | writeState (content : List String)
  | exitCall (code : Nat)
  | logError (message : String)
deriving DecidableEq

/-- The availability endpoint's HTTP response: `ok` status flag, numeric
status, and the parsed JSON body (`none` when the body fails to parse). -/
structure Response where
  ok : Bool
  status : Nat
  jsonBody : Option ApiData
deriving DecidableEq

/-- The external inputs of one run: the cookie file's contents, the state
file, `process.argv.slice(2)`, the availability response (`none` when the
network request itself rejects), and whether each notification POST
promise resolves. -/
structure Env where
  cookie : String
  file : FileContent
  args : List String
  response : Option Response
  sendOk : Bool
  errorSendOk : Bool

/-- Result of the state-file startup phase: the file afterwards, the
in-memory notified set, and the events performed. -/
structure LoadResult where
  file : FileContent
  notified : List String
  events : List Event
deriving DecidableEq

/-- Result of a whole run: the event trace, the final state file, and the
process exit code. -/
structure RunResult where
  events : List Event
  file : FileContent
  exitCode : Nat
deriving DecidableEq

/-- JavaScript `Set.prototype.add`: append the element unless present. -/
def setAdd (s : List String) (x : String) : List String :=
  if x ∈ s then s else s ++ [x]

/-- JavaScript `new Set(ids)`: deduplicate keeping first occurrences. -/
def setFromList (l : List String) : List String :=
  l.foldl setAdd []

/-- The notified set obtained by reading and parsing a state file:
`new Set(JSON.parse(fileData))`, and the empty set when the read or the
parse fails (script.js lines 39-47). -/
def loadNotified : FileContent → List String
  | FileContent.ids l => setFromList l
  | _ => []

/-- Startup handling of the state file (script.js lines 30-47): create it
holding an empty array when missing, then read and parse it, falling back
to the empty set (with a logged error) when parsing fails. -/
def loadState : FileContent → LoadResult
  | FileContent.missing =>
    { file := FileContent.ids [], notified := [], events := [Event.writeState []] }
  | FileContent.corrupt =>
    { file := FileContent.corrupt, notified := [],
      events := [Event.logError "Error reading state file:"] }
  | FileContent.ids l =>
    { file := FileContent.ids l, notified := setFromList l, events := [] }

/-- Process one `process.argv` token (script.js lines 53-58): split on
`=`, and when both the key and the value are non-empty record the value
under the key with any leading `--` stripped. -/
def parseArg (m : String → Option String) (arg : String) : String → Option String :=
  match jsSplit arg '=' with
  | k :: v :: _ =>
    if k ≠ "" ∧ v ≠ "" then (fun q => if q = stripDashes k then some v else m q) else m
  | _ => m

/-- The `params` object built from all argument tokens (script.js
lines 50-58); later tokens overwrite earlier ones. -/
def parseArgs (args : List String) : String → Option String :=
  args.foldl parseArg (fun _ => none)

/-- The parts of `new URL(u)` used by the script: its `origin` and the first
non-empty segment of its `pathname` (script.js lines 70-71). -/
structure UrlInfo where
  origin : String
  firstSeg : Option String
deriving DecidableEq

/-- Minimal model of WHATWG `new URL` for `scheme://host/path` strings:
`none` when there is no `://` or the scheme or remainder is empty
(`new URL` throws), otherwise the origin and the first non-empty path
segment. -/
def urlParse (u : String) : Option UrlInfo :=
  match breakOnSeq [':', '/', '/'] u.data with
  | none => none
  | some (scheme, rest) =>
    if scheme = [] ∨ rest = [] then none
    else
      let parts := splitOnChar '/' rest
      let host := parts.headD []
      let segs := (parts.tail.map (fun l => String.mk l)).filter (fun s => s ≠ "")
      some { origin := String.mk scheme ++ "://" ++ String.mk host,
             firstSeg := segs.head? }

/-- Model of `checkForTickets` after the request resolves (script.js lines 95-107):
throw on a non-ok status, throw when the body fails to parse, otherwise
return the parsed data. -/
def checkForTickets (resp : Response) : Except String ApiData :=
  if resp.ok = false then
    Except.error ("HTTP error! status: " ++ toString resp.status)
  else
    match resp.jsonBody with
    | none => Except.error "invalid json body"
    | some d => Except.ok d

/-- Outcome of the availability request: a rejection of `fetch` itself, or
the result of `checkForTickets` on the response. -/
def fetchOutcome : Option Response → Except String ApiData
  | none => Except.error "TypeError: fetch failed"
  | some r => checkForTickets r

/-- The `newOffers` filter (script.js lines 173-175): the fetched offers whose
identifier is not in the notified set. -/
def newOffers (offers : List Offer) (notified : List String) : List Offer :=
  offers.filter (fun o => !(notified.contains o.id))

/-- The `totalTickets` reduce (script.js lines 112-114): sum over the offers of the
sum of each offer's quantity list, via the same nested reduce. -/
def totalTickets (offers : List Offer) : Int :=
  offers.foldl (fun sum o => sum + o.quantities.foldl (fun qSum q => qSum + q) 0) 0

/-- The success-notification title (script.js lines 115-117), singular
`BILLET` exactly for a total of 1 and plural `BILLETTER` otherwise. -/
def successTitle (offers : List Offer) : String :=
  "DER ER " ++ toString (totalTickets offers) ++ " BILLET" ++
    (if totalTickets offers = 1 then "" else "TER") ++ " TIL SALG?!"

/-- The loop `offers.forEach((offer) => notifiedOfferIds.add(offer.id))`
(script.js lines 139-141). -/
def addIds (notified : List String) (offers : List Offer) : List String :=
  offers.foldl (fun s o => setAdd s o.id) notified

/-- Result of `sendSuccessNotification`: its events and, when the state
was saved, the saved identifier list. -/
structure NotifyResult where
  events : List Event
  saved : Option (List String)
deriving DecidableEq

/-- Model of `sendSuccessNotification` (script.js lines 109-150): POST the message,
and when the POST promise resolves add the offer identifiers to the set
and save it; when it rejects only log the error. -/
def sendSuccessNotification (offers : List Offer) (notified : List String)
    (sendOk : Bool) (eventName : String) : NotifyResult :=
  if sendOk then
    let notified2 := addIds notified offers
    { events := [Event.postSuccess offers (successTitle offers) eventName,
                 Event.writeState notified2],
      saved := some notified2 }
  else
    { events := [Event.postSuccess offers (successTitle offers) eventName,
                 Event.logError "Error sending notification:"],
      saved := none }

/-- The error-notification message body (script.js line 163). -/
def errMessage (eventName e : String) : String :=
  "An error occurred while checking tickets for \"" ++ eventName ++ "\".\n\n" ++ e

/-- Model of `sendErrorNotification` (script.js lines 152-168): POST the error
message; its own failure is only logged. -/
def sendErrorNotification (eventName e : String) (errorSendOk : Bool) : List Event :=
  [Event.postError (errMessage eventName e)] ++
    (if errorSendOk then [] else [Event.logError "Error sending error notification:"])

/-- The fetch-evaluate-notify phase (script.js lines 86-107 and 170-189):
fetch availability; on failure log and send the error notification; on
success filter the offers against the notified set and, when new offers
remain, dispatch the success notification. -/
def checkAndNotify (env : Env) (ls : LoadResult) (eventName : String) : RunResult :=
  let ev0 := ls.events ++ [Event.fetchAvailability]
  match fetchOutcome env.response with
  | Except.error e =>
    { events := ev0 ++ [Event.logError ("Error: " ++ e)] ++
        sendErrorNotification eventName e env.errorSendOk,
      file := ls.file, exitCode := 0 }
  | Except.ok data =>
    if 0 < data.offers.length then
      let nOffers := newOffers data.offers ls.notified
      if 0 < nOffers.length then
        let sres := sendSuccessNotification nOffers ls.notified env.sendOk eventName
        { events := ev0 ++ sres.events,
          file := match sres.saved with
                  | some l => FileContent.ids l
                  | none => ls.file,
          exitCode := 0 }
      else
        { events := ev0, file := ls.file, exitCode := 0 }
    else
      { events := ev0, file := ls.file, exitCode := 0 }

/-- One whole run of script.js in program order: cookie check (lines
12-28), state-file startup (lines 30-47), argument parsing (lines 50-58),
required-option validation (lines 60-68), ntfy URL parsing and topic
validation (lines 70-76), then the fetch-evaluate-notify phase. -/
def run (env : Env) : RunResult :=
  if jsTrim env.cookie = "" then
    { events := [Event.logError "Cookie file is missing or empty.", Event.exitCall 1],
      file := env.file, exitCode := 1 }
  else
    let ls := loadState env.file
    let params := parseArgs env.args
    match params "eventId", params "eventName", params "ntfyUrl" with
    | some _eventId, some eventName, some ntfyUrlFull =>
      (match urlParse ntfyUrlFull with
       | none =>
         { events := ls.events, file := ls.file, exitCode := 1 }
       | some info =>
         match info.firstSeg with
         | none =>
           { events := ls.events ++
               [Event.logError "Invalid ntfyUrl. Please provide a valid URL with a topic.",
                Event.exitCall 1],
             file := ls.file, exitCode := 1 }
         | some _topic => checkAndNotify env ls eventName)
    | _, _, _ =>
      { events := ls.events ++
          [Event.logError "Missing required parameters: eventId, eventName or ntfyUrl",
           Event.exitCall 1],
        file := ls.file, exitCode := 1 }

/-- Whether an event is the availability GET. -/
def isFetch : Event → Bool
  | Event.fetchAvailability => true
  | _ => false

/-! ### Basic lemmas about the set model and the startup phase -/

theorem mem_setAdd (s : List String) (x y : String) :
    x ∈ setAdd s y ↔ x ∈ s ∨ x = y := by
  unfold setAdd
  by_cases h : y ∈ s
  · rw [if_pos h]
    constructor
    · exact Or.inl
    · rintro (hx | rfl)
      · exact hx
      · exact h
  · rw [if_neg h]
    simp [List.mem_append]

theorem mem_foldl_setAdd (l acc : List String) (x : String) :
    x ∈ l.foldl setAdd acc ↔ x ∈ acc ∨ x ∈ l := by
  induction l generalizing acc with
  | nil => simp
  | cons a t ih => simp [List.foldl_cons, ih, mem_setAdd, or_assoc]

theorem mem_setFromList (l : List String) (x : String) :
    x ∈ setFromList l ↔ x ∈ l := by
  simp [setFromList, mem_foldl_setAdd]

theorem mem_foldl_addId (offers : List Offer) (acc : List String) (x : String) :
    x ∈ offers.foldl (fun s o => setAdd s o.id) acc ↔
      x ∈ acc ∨ x ∈ offers.map (fun o => o.id) := by
  induction offers generalizing acc with
  | nil => simp
  | cons a t ih => simp [List.foldl_cons, ih, mem_setAdd, or_assoc]

theorem mem_addIds (notified : List String) (offers : List Offer) (x : String) :
    x ∈ addIds notified offers ↔ x ∈ notified ∨ x ∈ offers.map (fun o => o.id) := by
  simp [addIds, mem_foldl_addId]

theorem loadState_notified (f : FileContent) :
    (loadState f).notified = loadNotified f := by
  cases f <;> rfl

theorem loadState_file_notified (f : FileContent) :
    loadNotified (loadState f).file = loadNotified f := by
  cases f <;> rfl

theorem loadState_no_postSuccess (f : FileContent) (o : List Offer) (t m : String) :
    Event.postSuccess o t m ∉ (loadState f).events := by
  cases f <;> simp [loadState]

theorem loadState_no_exitCall (f : FileContent) (c : Nat) :
    Event.exitCall c ∉ (loadState f).events := by
  cases f <;> simp [loadState]

theorem loadState_no_fetch (f : FileContent) :
    Event.fetchAvailability ∉ (loadState f).events := by
  cases f <;> simp [loadState]

theorem loadState_countP_isFetch (f : FileContent) :
    (loadState f).events.countP isFetch = 0 := by
  cases f <;> rfl

theorem loadState_no_writeState (l : List String) (h : l ≠ []) (f : FileContent) :
    Event.writeState l ∉ (loadState f).events := by
  cases f <;> simp [loadState] <;> intro hl <;> exact h hl

theorem run_eq_checkAndNotify (env : Env) (idv name urlv : String) (info : UrlInfo)
    (t : String)
    (hc : jsTrim env.cookie ≠ "")
    (h1 : parseArgs env.args "eventId" = some idv)
    (h2 : parseArgs env.args "eventName" = some name)
    (h3 : parseArgs env.args "ntfyUrl" = some urlv)
    (hu : urlParse urlv = some info)
    (ht : info.firstSeg = some t) :
    run env = checkAndNotify env (loadState env.file) name := by
  unfold run
  rw [if_neg hc]
  simp only [h1, h2, h3, hu, ht]

/-! ### C1: newOffers is the set difference by identifier -/

/-- C1: for every fetched offer collection and notified set, `newOffers`
is exactly the set difference by identifier: an offer belongs to it iff it
belongs to the fetched collection and its identifier is not notified. -/
theorem newOffers_mem_iff (offers : List Offer) (notified : List String) (o : Offer) :
    o ∈ newOffers offers notified ↔ o ∈ offers ∧ o.id ∉ notified := by
  simp [newOffers, List.mem_filter, List.elem_iff]

/-! ### C6: ticket total and title pluralization -/

theorem foldl_add_shift (l : List Int) (a : Int) :
    l.foldl (fun s q => s + q) a = a + l.sum := by
  induction l generalizing a with
  | nil => simp
  | cons x t ih => simp [List.foldl_cons, ih, add_assoc]

theorem foldl_add_map (offers : List Offer) (f : Offer → Int) (a : Int) :
    offers.foldl (fun s o => s + f o) a = a + (offers.map f).sum := by
  induction offers generalizing a with
  | nil => simp
  | cons x t ih => simp [List.foldl_cons, ih, add_assoc]

theorem string_data_append (a b : String) : (a ++ b).data = a.data ++ b.data := rfl

theorem string_data_ext (a b : String) (h : a.data = b.data) : a = b := by
  cases a
  cases b
  exact congrArg String.mk h

theorem totalTickets_eq_sum (offers : List Offer) :
    totalTickets offers = (offers.map (fun o => o.quantities.sum)).sum := by
  unfold totalTickets
  rw [foldl_add_map offers (fun o => o.quantities.foldl (fun qSum q => qSum + q) 0) 0,
    zero_add]
  have h : (fun o : Offer => o.quantities.foldl (fun qSum q => qSum + q) 0) =
      (fun o : Offer => o.quantities.sum) := by
    funext o
    rw [foldl_add_shift, zero_add]
  rw [h]

theorem successTitle_eq (offers : List Offer) :
    successTitle offers =
      "DER ER " ++ toString (totalTickets offers) ++
        (if totalTickets offers = 1 then " BILLET TIL SALG?!"
         else " BILLETTER TIL SALG?!") := by
  unfold successTitle
  by_cases h : totalTickets offers = 1
  · rw [if_pos h, if_pos h]
    apply string_data_ext
    simp only [string_data_append, List.append_assoc]
    rw [List.append_right_inj, List.append_right_inj]
    decide
  · rw [if_neg h, if_neg h]
    apply string_data_ext
    simp only [string_data_append, List.append_assoc]
    rw [List.append_right_inj, List.append_right_inj]
    decide

/-- C6: the success-notification title's total is the sum of every offer's
quantity list, and its wording is singular (`BILLET`) exactly when that
total equals 1 and plural (`BILLETTER`) exactly when it is not (so in
particular when the total is 0 or greater than 1). -/
theorem success_title_pluralization (offers : List Offer) :
    totalTickets offers = (offers.map (fun o => o.quantities.sum)).sum ∧
    (successTitle offers =
        "DER ER " ++ toString (totalTickets offers) ++ " BILLET TIL SALG?!" ↔
      totalTickets offers = 1) ∧
    (successTitle offers =
        "DER ER " ++ toString (totalTickets offers) ++ " BILLETTER TIL SALG?!" ↔
      totalTickets offers ≠ 1) := by
  refine ⟨totalTickets_eq_sum offers, ?_, ?_⟩
  · rw [successTitle_eq]
    by_cases h : totalTickets offers = 1
    · rw [if_pos h]
      simp [h]
    · rw [if_neg h]
      constructor
      · intro heq
        exfalso
        have hd := congrArg String.data heq
        simp only [string_data_append, List.append_assoc] at hd
        rw [List.append_right_inj, List.append_right_inj] at hd
        exact absurd hd (by decide)
      · intro h1
        exact absurd h1 h
  · rw [successTitle_eq]
    by_cases h : totalTickets offers = 1
    · rw [if_pos h]
      constructor
      · intro heq
        exfalso
        have hd := congrArg String.data heq
        simp only [string_data_append, List.append_assoc] at hd
        rw [List.append_right_inj, List.append_right_inj] at hd
        exact absurd hd (by decide)
      · intro h1
        exact absurd h h1
    · rw [if_neg h]
      simp [h]

/-! ### Branch lemmas for the fetch-evaluate-notify phase -/

theorem sendError_countP_isFetch (name e : String) (b : Bool) :
    (sendErrorNotification name e b).countP isFetch = 0 := by
  cases b <;> rfl

theorem sendSuccess_countP_isFetch (offers : List Offer) (notified : List String)
    (b : Bool) (name : String) :
    (sendSuccessNotification offers notified b name).events.countP isFetch = 0 := by
  cases b <;> rfl

theorem checkAndNotify_error (env : Env) (ls : LoadResult) (name e : String)
    (he : fetchOutcome env.response = Except.error e) :
    checkAndNotify env ls name =
      { events := ls.events ++ [Event.fetchAvailability] ++
          [Event.logError ("Error: " ++ e)] ++
          sendErrorNotification name e env.errorSendOk,
        file := ls.file, exitCode := 0 } := by
  unfold checkAndNotify
  rw [he]

theorem checkAndNotify_no_new (env : Env) (ls : LoadResult) (name : String)
    (data : ApiData) (he : fetchOutcome env.response = Except.ok data)
    (hn : newOffers data.offers ls.notified = []) :
    checkAndNotify env ls name =
      { events := ls.events ++ [Event.fetchAvailability], file := ls.file,
        exitCode := 0 } := by
  unfold checkAndNotify
  simp only [he, hn, List.length_nil]
  rw [if_neg (Nat.lt_irrefl 0), ite_self]

theorem checkAndNotify_new (env : Env) (ls : LoadResult) (name : String)
    (data : ApiData) (he : fetchOutcome env.response = Except.ok data)
    (hn : newOffers data.offers ls.notified ≠ []) :
    checkAndNotify env ls name =
      { events := ls.events ++ [Event.fetchAvailability] ++
          (sendSuccessNotification (newOffers data.offers ls.notified) ls.notified
            env.sendOk name).events,
        file := match (sendSuccessNotification (newOffers data.offers ls.notified)
                  ls.notified env.sendOk name).saved with
                | some l => FileContent.ids l
                | none => ls.file,
        exitCode := 0 } := by
  have hlen : 0 < (newOffers data.offers ls.notified).length := List.length_pos.mpr hn
  have hoff : 0 < data.offers.length := by
    rcases data.offers.eq_nil_or_concat with h0 | ⟨l, a, h0⟩
    · exfalso
      apply hn
      rw [h0]
      rfl
    · rw [h0]
      simp
  unfold checkAndNotify
  simp only [he]
  rw [if_pos hoff, if_pos hlen]

/-! ### C7: availability fetch failure conditions and propagation -/

/-- C7: `checkForTickets` fails exactly when the response status is not ok
or the body cannot be parsed, and otherwise returns the parsed offer
collection; a failure is handed unchanged to the orchestrator's catch path
(which sends the error notification for that very error) with no second
fetch attempt. -/
theorem checkForTickets_error_iff (resp : Response) :
    ((∃ e, checkForTickets resp = Except.error e) ↔
      (resp.ok = false ∨ resp.jsonBody = none)) ∧
    (∀ d, resp.ok = true → resp.jsonBody = some d →
      checkForTickets resp = Except.ok d) ∧
    (∀ (env : Env) (ls : LoadResult) (name e : String),
      env.response = some resp →
      checkForTickets resp = Except.error e →
      Event.postError (errMessage name e) ∈ (checkAndNotify env ls name).events ∧
      (checkAndNotify env ls name).events.countP isFetch =
        ls.events.countP isFetch + 1) := by
  refine ⟨?_, ?_, ?_⟩
  · cases hok : resp.ok <;> cases hj : resp.jsonBody <;>
      simp [checkForTickets, hok, hj]
  · intro d h1 h2
    simp [checkForTickets, h1, h2]
  · intro env ls name e hr he
    have hf : fetchOutcome env.response = Except.error e := by
      rw [hr]
      exact he
    rw [checkAndNotify_error env ls name e hf]
    constructor
    · simp [sendErrorNotification]
    · simp only [List.countP_append, sendError_countP_isFetch]
      have h1 : List.countP isFetch [Event.fetchAvailability] = 1 := rfl
      have h2 : List.countP isFetch [Event.logError ("Error: " ++ e)] = 0 := rfl
      omega

/-! ### Concrete inputs used by the closed witness theorems -/

/-- An HTTP 500 availability response. -/
def respErr : Response := { ok := false, status := 500, jsonBody := none }

/-- A parsed availability body with one already-notified offer and one new
offer. -/
def dataNew : ApiData :=
  { offers := [{ id := "A", quantities := [1] }, { id := "B", quantities := [2] }] }

/-- A fully configured environment whose availability fetch fails with
HTTP 500. -/
def envErr : Env :=
  { cookie := "c", file := FileContent.ids ["A"],
    args := ["--eventId=1", "--eventName=n", "--ntfyUrl=https://h/t"],
    response := some respErr, sendOk := true, errorSendOk := true }

/-- A fully configured environment that finds one new offer and whose
notification POST resolves. -/
def envNew : Env :=
  { cookie := "c", file := FileContent.ids ["A"],
    args := ["--eventId=1", "--eventName=n", "--ntfyUrl=https://h/t"],
    response := some { ok := true, status := 200, jsonBody := some dataNew },
    sendOk := true, errorSendOk := true }

/-- An environment missing the required eventName option. -/
def envMissing : Env :=
  { cookie := "c", file := FileContent.ids [],
    args := ["--eventId=1", "--ntfyUrl=https://h/t"],
    response := none, sendOk := true, errorSendOk := true }

/-! ### C8: missing required option exits before any network call -/

/-- C8: when any of the required options eventId, eventName or ntfyUrl is
missing from the parsed arguments (and the cookie check has passed), the
run logs the descriptive message and exits with code 1, and no
availability fetch is ever attempted. -/
theorem missing_required_option_exits (env : Env)
    (hc : jsTrim env.cookie ≠ "")
    (hm : parseArgs env.args "eventId" = none ∨
          parseArgs env.args "eventName" = none ∨
          parseArgs env.args "ntfyUrl" = none) :
    (run env).exitCode = 1 ∧
    Event.logError "Missing required parameters: eventId, eventName or ntfyUrl" ∈
      (run env).events ∧
    Event.exitCall 1 ∈ (run env).events ∧
    Event.fetchAvailability ∉ (run env).events := by
  have hrun : run env =
      { events := (loadState env.file).events ++
          [Event.logError "Missing required parameters: eventId, eventName or ntfyUrl",
           Event.exitCall 1],
        file := (loadState env.file).file, exitCode := 1 } := by
    unfold run
    rw [if_neg hc]
    rcases hm with h | h | h
    · simp only [h]
    · cases h1 : parseArgs env.args "eventId" <;> simp only [h, h1]
    · cases h1 : parseArgs env.args "eventId" <;>
        cases h2 : parseArgs env.args "eventName" <;> simp only [h, h1, h2]
  rw [hrun]
  refine ⟨rfl, ?_, ?_, ?_⟩
  · simp
  · simp
  · simp [loadState_no_fetch]

/-- Witness for C7: a parsed ok response returns its offers, and the HTTP
500 error reaches the error-notification path with exactly one fetch. -/
theorem checkForTickets_error_iff_witness :
    checkForTickets { ok := true, status := 200, jsonBody := some { offers := [] } } =
      Except.ok { offers := [] } ∧
    Event.postError (errMessage "n" "HTTP error! status: 500") ∈
      (checkAndNotify envErr
        { file := FileContent.ids [], notified := [], events := [] } "n").events :=
  ⟨(checkForTickets_error_iff
      { ok := true, status := 200, jsonBody := some { offers := [] } }).2.1
        { offers := [] } rfl rfl,
   ((checkForTickets_error_iff respErr).2.2 envErr
      { file := FileContent.ids [], notified := [], events := [] } "n"
      "HTTP error! status: 500" rfl rfl).1⟩

/-- Witness for C8: with eventName absent the run exits 1 and never
fetches. -/
theorem missing_required_option_exits_witness :
    (run envMissing).exitCode = 1 ∧
    Event.fetchAvailability ∉ (run envMissing).events := by
  have h := missing_required_option_exits envMissing (by decide)
    (Or.inr (Or.inl (by decide)))
  exact ⟨h.1, h.2.2.2⟩

/-! ### C4: missing or corrupt state file never aborts the run -/

theorem checkAndNotify_exitCode (env : Env) (ls : LoadResult) (name : String) :
    (checkAndNotify env ls name).exitCode = 0 := by
  unfold checkAndNotify
  cases hfo : fetchOutcome env.response with
  | error e => simp only [hfo]
  | ok data =>
    simp only [hfo]
    split
    · split
      · rfl
      · rfl
    · rfl

theorem checkAndNotify_fetch_mem (env : Env) (ls : LoadResult) (name : String) :
    Event.fetchAvailability ∈ (checkAndNotify env ls name).events := by
  unfold checkAndNotify
  cases hfo : fetchOutcome env.response with
  | error e =>
    simp only [hfo]
    simp
  | ok data =>
    simp only [hfo]
    split
    · split
      · simp
      · simp
    · simp

theorem checkAndNotify_exitCall_not_mem (env : Env) (ls : LoadResult) (name : String)
    (c : Nat) (h : Event.exitCall c ∉ ls.events) :
    Event.exitCall c ∉ (checkAndNotify env ls name).events := by
  unfold checkAndNotify sendSuccessNotification sendErrorNotification
  cases hfo : fetchOutcome env.response with
  | error e =>
    simp only [hfo]
    cases env.errorSendOk <;> simp [h]
  | ok data =>
    simp only [hfo]
    split
    · split
      · cases env.sendOk <;> simp [h]
      · simp [h]
    · simp [h]

/-- C4: a missing state file loads as the empty notified set (creating the
file holding an empty array), a corrupt one loads as the empty notified
set (logging the error), and in both cases a configured run continues to
the availability fetch and never calls `process.exit`. -/
theorem load_missing_or_corrupt_resilient (env : Env) (idv name urlv : String)
    (info : UrlInfo) (t : String)
    (hc : jsTrim env.cookie ≠ "")
    (h1 : parseArgs env.args "eventId" = some idv)
    (h2 : parseArgs env.args "eventName" = some name)
    (h3 : parseArgs env.args "ntfyUrl" = some urlv)
    (hu : urlParse urlv = some info)
    (ht : info.firstSeg = some t) :
    loadState FileContent.missing =
      { file := FileContent.ids [], notified := [],
        events := [Event.writeState []] } ∧
    loadState FileContent.corrupt =
      { file := FileContent.corrupt, notified := [],
        events := [Event.logError "Error reading state file:"] } ∧
    ((env.file = FileContent.missing ∨ env.file = FileContent.corrupt) →
      (run env).exitCode = 0 ∧
      Event.fetchAvailability ∈ (run env).events ∧
      ∀ c, Event.exitCall c ∉ (run env).events) := by
  refine ⟨rfl, rfl, ?_⟩
  intro hf
  rw [run_eq_checkAndNotify env idv name urlv info t hc h1 h2 h3 hu ht]
  refine ⟨checkAndNotify_exitCode env _ name, checkAndNotify_fetch_mem env _ name, ?_⟩
  intro c
  apply checkAndNotify_exitCall_not_mem env _ name c
  rcases hf with hf | hf <;> rw [hf] <;> exact loadState_no_exitCall _ c

/-- Witness for C4: a run started with a missing state file proceeds to
the fetch and exits 0. -/
theorem load_missing_or_corrupt_resilient_witness :
    (run { envErr with file := FileContent.missing }).exitCode = 0 ∧
    Event.fetchAvailability ∈ (run { envErr with file := FileContent.missing }).events := by
  have h := load_missing_or_corrupt_resilient
    { envErr with file := FileContent.missing } "1" "n" "https://h/t"
    { origin := "https://h", firstSeg := some "t" } "t"
    (by decide) rfl rfl rfl (by decide) rfl
  exact ⟨(h.2.2 (Or.inl rfl)).1, (h.2.2 (Or.inl rfl)).2.1⟩

/-! ### C9: availability-fetch failure is caught and routed to the error path -/

/-- C9: when the availability fetch fails, the run does not crash: the
error is logged and an error notification is sent whose message contains
the event name and the error detail, the state file is not written beyond
the startup phase (so an existing state file is untouched), and the run
finishes with exit code 0. -/
theorem fetch_failure_error_path (env : Env) (idv name urlv : String)
    (info : UrlInfo) (t e : String)
    (hc : jsTrim env.cookie ≠ "")
    (h1 : parseArgs env.args "eventId" = some idv)
    (h2 : parseArgs env.args "eventName" = some name)
    (h3 : parseArgs env.args "ntfyUrl" = some urlv)
    (hu : urlParse urlv = some info)
    (ht : info.firstSeg = some t)
    (he : fetchOutcome env.response = Except.error e) :
    (run env).exitCode = 0 ∧
    Event.postError (errMessage name e) ∈ (run env).events ∧
    (∃ a b, errMessage name e = a ++ name ++ b) ∧
    (∃ a b, errMessage name e = a ++ e ++ b) ∧
    (run env).file = (loadState env.file).file ∧
    (∀ l, env.file = FileContent.ids l → (run env).file = env.file) ∧
    (∀ c, Event.writeState c ∈ (run env).events →
      Event.writeState c ∈ (loadState env.file).events) := by
  rw [run_eq_checkAndNotify env idv name urlv info t hc h1 h2 h3 hu ht,
    checkAndNotify_error env (loadState env.file) name e he]
  refine ⟨rfl, ?_, ?_, ?_, rfl, ?_, ?_⟩
  · simp [sendErrorNotification]
  · refine ⟨"An error occurred while checking tickets for \"", "\".\n\n" ++ e, ?_⟩
    unfold errMessage
    rw [String.append_assoc]
  · refine ⟨"An error occurred while checking tickets for \"" ++ name ++ "\".\n\n",
      "", ?_⟩
    unfold errMessage
    rw [String.append_empty]
  · intro l hl
    rw [hl]
    rfl
  · intro c hcmem
    simp only [sendErrorNotification, List.mem_append] at hcmem
    rcases hcmem with ((hin | hin) | hin) | hin
    · exact hin
    · simp at hin
    · simp at hin
    · exfalso
      rcases hb : env.errorSendOk <;> rw [hb] at hin <;> simp at hin

/-- Witness for C9: an HTTP 500 run exits 0, posts the error notification,
and leaves the existing state file unchanged. -/
theorem fetch_failure_error_path_witness :
    (run envErr).exitCode = 0 ∧
    Event.postError (errMessage "n" "HTTP error! status: 500") ∈ (run envErr).events ∧
    (run envErr).file = envErr.file := by
  have h := fetch_failure_error_path envErr "1" "n" "https://h/t"
    { origin := "https://h", firstSeg := some "t" } "t" "HTTP error! status: 500"
    (by decide) rfl rfl rfl (by decide) rfl rfl
  exact ⟨h.1, h.2.1, h.2.2.2.2.2.1 ["A"] rfl⟩

/-! ### C2: identifiers are committed exactly on notification-send success -/

/-- C2: when a non-empty set of new offers is dispatched, a resolving
notification POST commits exactly the union of the previous notified set
and the dispatched offers' identifiers to the state file, while a
rejecting POST leaves the persisted state exactly as it was. -/
theorem commit_on_send_success_only (env : Env) (idv name urlv : String)
    (info : UrlInfo) (t : String) (l : List String) (data : ApiData)
    (hc : jsTrim env.cookie ≠ "")
    (h1 : parseArgs env.args "eventId" = some idv)
    (h2 : parseArgs env.args "eventName" = some name)
    (h3 : parseArgs env.args "ntfyUrl" = some urlv)
    (hu : urlParse urlv = some info)
    (ht : info.firstSeg = some t)
    (hf : env.file = FileContent.ids l)
    (he : fetchOutcome env.response = Except.ok data)
    (hne : newOffers data.offers (setFromList l) ≠ []) :
    (env.sendOk = true →
      ∃ m, (run env).file = FileContent.ids m ∧
        ∀ x, x ∈ m ↔ x ∈ setFromList l ∨
          x ∈ (newOffers data.offers (setFromList l)).map (fun o => o.id)) ∧
    (env.sendOk = false → (run env).file = env.file) := by
  rw [run_eq_checkAndNotify env idv name urlv info t hc h1 h2 h3 hu ht, hf]
  have hls : loadState (FileContent.ids l) =
      { file := FileContent.ids l, notified := setFromList l, events := [] } := rfl
  rw [hls]
  rw [checkAndNotify_new env
    { file := FileContent.ids l, notified := setFromList l, events := [] }
    name data he hne]
  constructor
  · intro hs
    simp only [sendSuccessNotification, hs, if_true]
    refine ⟨addIds (setFromList l) (newOffers data.offers (setFromList l)), rfl, ?_⟩
    intro x
    exact mem_addIds (setFromList l) (newOffers data.offers (setFromList l)) x
  · intro hs
    simp only [sendSuccessNotification, hs]
    rfl

/-- Witness for C2: with one already-notified offer `A` and one new offer
`B`, a resolving send persists exactly the set with `A` and `B`. -/
theorem commit_on_send_success_only_witness :
    ∃ m, (run envNew).file = FileContent.ids m ∧
      ∀ x, x ∈ m ↔ x ∈ setFromList ["A"] ∨
        x ∈ (newOffers dataNew.offers (setFromList ["A"])).map (fun o => o.id) :=
  (commit_on_send_success_only envNew "1" "n" "https://h/t"
    { origin := "https://h", firstSeg := some "t" } "t" ["A"] dataNew
    (by decide) rfl rfl rfl (by decide) rfl rfl rfl (by decide)).1 rfl

/-! ### C3: no new offers means no state-file change, so evaluation is idempotent -/

/-- C3: when every fetched offer identifier is already in the persisted
notified set, the run leaves the state file unchanged, and running it
again on the resulting file again leaves it unchanged. -/
theorem no_new_offers_idempotent (env : Env) (idv name urlv : String)
    (info : UrlInfo) (t : String) (l : List String) (data : ApiData)
    (hc : jsTrim env.cookie ≠ "")
    (h1 : parseArgs env.args "eventId" = some idv)
    (h2 : parseArgs env.args "eventName" = some name)
    (h3 : parseArgs env.args "ntfyUrl" = some urlv)
    (hu : urlParse urlv = some info)
    (ht : info.firstSeg = some t)
    (hf : env.file = FileContent.ids l)
    (he : fetchOutcome env.response = Except.ok data)
    (hsub : ∀ o ∈ data.offers, o.id ∈ setFromList l) :
    (run env).file = env.file ∧
    (run { env with file := (run env).file }).file = env.file := by
  have hn : newOffers data.offers (setFromList l) = [] := by
    rw [newOffers, List.filter_eq_nil_iff]
    intro o ho
    simp
    exact hsub o ho
  have hone : (run env).file = env.file := by
    rw [run_eq_checkAndNotify env idv name urlv info t hc h1 h2 h3 hu ht, hf]
    rw [checkAndNotify_no_new env (loadState (FileContent.ids l)) name data he hn]
    rfl
  refine ⟨hone, ?_⟩
  rw [hone]
  exact hone

/-- A parsed availability body whose only offer is already notified. -/
def dataOld : ApiData := { offers := [{ id := "A", quantities := [1] }] }

/-- A fully configured environment whose only fetched offer is already in
the persisted set `["A"]`. -/
def envOld : Env :=
  { cookie := "c", file := FileContent.ids ["A"],
    args := ["--eventId=1", "--eventName=n", "--ntfyUrl=https://h/t"],
    response := some { ok := true, status := 200, jsonBody := some dataOld },
    sendOk := true, errorSendOk := true }

/-- Witness for C3: an environment whose only fetched offer is already
notified leaves the state file `["A"]` unchanged. -/
theorem no_new_offers_idempotent_witness :
    (run envOld).file = envOld.file :=
  (no_new_offers_idempotent envOld "1" "n" "https://h/t"
    { origin := "https://h", firstSeg := some "t" } "t" ["A"] dataOld
    (by decide) rfl rfl rfl (by decide) rfl rfl rfl (by decide)).1

/-! ### C10: command-line token parsing -/

/-- C10: an argument token is recorded only when it has the form
`key=value` with a non-empty key and a non-empty value, the recorded key
has one leading `--` stripped, a token without `=` or with an empty key or
value is silently ignored (so the corresponding option stays missing and
the exit-1 path fires), and for `--key=a=b` only the segment before the
second `=` is kept as the value. -/
theorem cli_arg_parsing (m : String → Option String) (arg k v : String)
    (rest : List String) :
    (∀ s, jsSplit arg '=' = [s] → parseArg m arg = m) ∧
    (jsSplit arg '=' = k :: v :: rest → (k = "" ∨ v = "") → parseArg m arg = m) ∧
    (jsSplit arg '=' = k :: v :: rest → k ≠ "" → v ≠ "" →
      parseArg m arg = fun q => if q = stripDashes k then some v else m q) ∧
    jsSplit "--key=a=b" '=' = ["--key", "a", "b"] ∧
    parseArgs ["--key=a=b"] "key" = some "a" ∧
    parseArgs ["--eventId="] "eventId" = none ∧
    parseArgs ["noequals"] "noequals" = none ∧
    (run { cookie := "c", file := FileContent.ids [],
           args := ["--eventId=", "--eventName=n", "--ntfyUrl=https://h/t"],
           response := none, sendOk := true, errorSendOk := true }).exitCode = 1 := by
  refine ⟨?_, ?_, ?_, by decide, by decide, by decide, by decide, ?_⟩
  · intro s hs
    unfold parseArg
    rw [hs]
  · intro hs hkv
    unfold parseArg
    simp only [hs]
    have hnot : ¬(k ≠ "" ∧ v ≠ "") := by
      rcases hkv with h | h <;> simp [h]
    rw [if_neg hnot]
  · intro hs hk hv
    unfold parseArg
    simp only [hs]
    rw [if_pos (And.intro hk hv)]
  · decide

/-- Witness for C10 at a concrete token: `--opt=x=y` records value `x`
under key `opt`. -/
theorem cli_arg_parsing_witness :
    parseArg (fun _ => none) "--opt=x=y" =
      fun q => if q = stripDashes "--opt" then some "x" else (fun _ => none) q :=
  (cli_arg_parsing (fun _ => none) "--opt=x=y" "--opt" "x" ["y"]).2.2.1
    (by decide) (by decide) (by decide)

/-! ### C5: the notified set never shrinks and grows exactly by sent identifiers -/

theorem loadState_notified_eq_file (f : FileContent) :
    (loadState f).notified = loadNotified (loadState f).file := by
  cases f <;> rfl

theorem checkAndNotify_growth (env : Env) (ls : LoadResult) (name : String)
    (hls : ∀ o ti me, Event.postSuccess o ti me ∉ ls.events)
    (hsn : ls.notified = loadNotified ls.file) (x : String) :
    x ∈ loadNotified (checkAndNotify env ls name).file ↔
      x ∈ loadNotified ls.file ∨
        (env.sendOk = true ∧
          ∃ offers ti me,
            Event.postSuccess offers ti me ∈ (checkAndNotify env ls name).events ∧
              x ∈ offers.map (fun o => o.id)) := by
  cases hfo : fetchOutcome env.response with
  | error e =>
    rw [checkAndNotify_error env ls name e hfo]
    cases hb : env.errorSendOk <;> simp [sendErrorNotification, hls]
  | ok data =>
    by_cases hn : newOffers data.offers ls.notified = []
    · rw [checkAndNotify_no_new env ls name data hfo hn]
      simp [hls]
    · rw [checkAndNotify_new env ls name data hfo hn]
      cases hb : env.sendOk
      · simp [sendSuccessNotification, hls]
      · simp [sendSuccessNotification, loadNotified, mem_setFromList, mem_addIds,
          hsn, hls]

/-- C5: the persisted notified set never shrinks during a run, and it
grows by exactly the identifiers of the offers carried by a
success-notification whose POST resolved — every other path leaves the
loaded set unchanged. -/
theorem notified_set_monotone_growth (env : Env) :
    (∀ x, x ∈ loadNotified env.file → x ∈ loadNotified (run env).file) ∧
    (∀ x, x ∈ loadNotified (run env).file ↔
      x ∈ loadNotified env.file ∨
        (env.sendOk = true ∧
          ∃ offers ti me, Event.postSuccess offers ti me ∈ (run env).events ∧
            x ∈ offers.map (fun o => o.id))) := by
  have H : ∀ x, x ∈ loadNotified (run env).file ↔
      x ∈ loadNotified env.file ∨
        (env.sendOk = true ∧
          ∃ offers ti me, Event.postSuccess offers ti me ∈ (run env).events ∧
            x ∈ offers.map (fun o => o.id)) := by
    intro x
    simp only [run]
    by_cases hc : jsTrim env.cookie = ""
    · rw [if_pos hc]
      simp
    · rw [if_neg hc]
      cases h1 : parseArgs env.args "eventId" with
      | none => simp [loadState_file_notified, loadState_no_postSuccess]
      | some idv =>
        cases h2 : parseArgs env.args "eventName" with
        | none => simp [loadState_file_notified, loadState_no_postSuccess]
        | some nm =>
          cases h3 : parseArgs env.args "ntfyUrl" with
          | none => simp [loadState_file_notified, loadState_no_postSuccess]
          | some uv =>
            cases hu : urlParse uv with
            | none => simp [hu, loadState_file_notified, loadState_no_postSuccess]
            | some info =>
              cases ht : info.firstSeg with
              | none => simp [hu, ht, loadState_file_notified, loadState_no_postSuccess]
              | some tp =>
                simp only [hu, ht]
                rw [checkAndNotify_growth env (loadState env.file) nm
                  (fun o ti me => loadState_no_postSuccess env.file o ti me)
                  (loadState_notified_eq_file env.file) x,
                  loadState_file_notified]
  exact ⟨fun x hx => (H x).mpr (Or.inl hx), H⟩

/-- Witness for C5: in the successful-send run over state `["A"]` with new
offer `B`, the old identifier `A` is still in the reloaded persisted
set. -/
theorem notified_set_monotone_growth_witness :
    "A" ∈ loadNotified (run envNew).file :=
  (notified_set_monotone_growth envNew).1 "A" (by decide)
